import Mathlib

/-
Verification of the nutrition-calculator lookup pipeline (src/app.py).

The program is a linear pipeline load -> resolve -> scale -> render.  We give
a shallow embedding of its computational core:

* Python strings are sequences of Unicode code points, embedded as `List Char`
  so every operation below is kernel-computable; `str.strip` and `str.lower`
  are embedded character by character (ASCII fragment, which covers dish
  names).
* `pandas.Series.str.contains(query)` is called with its default
  `regex=True`, so the free-text query is interpreted as a regular
  expression via `re.search`.  We embed the regex fragment in which the only
  metacharacter is `.` (any character); every other pattern character is a
  literal.  Patterns that use other Python metacharacters are outside the
  modelled fragment.
* The nutrient cells are converted with `float(...)` in the source; IEEE
  values are idealised as rationals, which is faithful for the scaling
  claims because the source applies no rounding or clamping.
* Reading `dishes.csv` from the file system is embedded as an optional list
  of rows; `none` stands for the missing file (`FileNotFoundError`).
-/

namespace NutritionApp

/-- A Python string: a sequence of Unicode code points. -/
abbrev PyStr := List Char

/-- The whitespace test used by Python `str.strip` (ASCII fragment). -/
def pyIsSpace (c : Char) : Bool :=
  c = ' ' || c = '\t' || c = '\n' || c = '\r' || c = '\x0b' || c = '\x0c'

/-- Python `str.strip()`: drop whitespace from both ends. -/
def pyStrip (s : PyStr) : PyStr :=
  ((s.dropWhile pyIsSpace).reverse.dropWhile pyIsSpace).reverse

/-- Python `str.lower()`: lowercase every character (ASCII fragment, where it
agrees with `Char.toLower`). -/
def pyLower (s : PyStr) : PyStr := s.map Char.toLower

/-- One step of Python regex matching in the modelled fragment: the
metacharacter `.` matches any character, every other pattern character
matches only itself. -/
def charMatches (p c : Char) : Bool := p = '.' || p = c

/-- Match the whole pattern against the beginning of the text. -/
def matchHere : PyStr → PyStr → Bool
  | [], _ => true
  | _ :: _, [] => false
  | p :: ps, c :: cs => charMatches p c && matchHere ps cs

/-- Python `re.search`, as used by `pandas.Series.str.contains(pat)` with its
default `regex=True`: the pattern may match starting at any position of the
text. -/
def reSearch (pat : PyStr) : PyStr → Bool
  | [] => matchHere pat []
  | s@(_ :: cs) => matchHere pat s || reSearch pat cs

/-- The characters that are metacharacters of Python regular expressions. -/
def reMetachars : PyStr :=
  ['.', '^', '$', '*', '+', '?', '\x7b', '\x7d', '[', ']', '\\', '|', '(', ')']

/-- One row of `dishes.csv`: the `Dish` name and the four numeric nutrient
columns `Calories`, `Protein_g`, `Carbs_g`, `Fat_g`. -/
structure DishRecord where
  name : PyStr
  calories : ℚ
  protein_g : ℚ
  carbs_g : ℚ
  fat_g : ℚ
deriving DecidableEq

/-- The value of the derived `dish_lower` cell of a row, as constructed by
`load_dishes` (`df["Dish"].str.lower()`). -/
def dish_lower (r : DishRecord) : PyStr := pyLower r.name

/-- The loaded frame: the records together with the derived `dish_lower`
column attached by `load_dishes`. -/
structure Dataset where
  records : List DishRecord
  dishLower : List PyStr
deriving DecidableEq

/-- The one failure kind of the loader: `pd.read_csv` raises
`FileNotFoundError` when the csv file is missing. -/
inductive LoadError
  | datasetNotFound
deriving DecidableEq

/-- `load_dishes` (src/app.py lines 74-79): read the csv — embedded as an
optional row list, `none` when the file is missing — and attach the
`dish_lower` column. -/
def load_dishes (source : Option (List DishRecord)) : Except LoadError Dataset :=
  match source with
  | none => .error .datasetNotFound
  | some rows => .ok ⟨rows, rows.map (fun r => dish_lower r)⟩

/-- The query branch of `main` (src/app.py lines 128-133): if the text input
is non-empty after stripping, keep the rows whose `dish_lower` cell matches
the stripped, lowercased text under `str.contains` (pandas default
`regex=True`, embedded by `reSearch`); otherwise keep the rows whose
`dish_lower` cell equals the lowercased selected dish. -/
def resolve (ds : List DishRecord) (textInput selectedDish : PyStr) : List DishRecord :=
  if pyStrip textInput ≠ [] then
    let query := pyLower (pyStrip textInput)
    ds.filter (fun r => reSearch query (dish_lower r))
  else
    let query := pyLower selectedDish
    ds.filter (fun r => dish_lower r == query)

/-- The row predicate `main` applies on the branch chosen for the query. -/
def queryPred (textInput selectedDish : PyStr) (r : DishRecord) : Bool :=
  if pyStrip textInput ≠ [] then
    reSearch (pyLower (pyStrip textInput)) (dish_lower r)
  else
    dish_lower r == pyLower selectedDish

/-- The two value lists the scaler hands to the presentation layer. -/
structure ScaleResult where
  perServing : List ℚ
  total : List ℚ
deriving DecidableEq

/-- The scaler (src/app.py lines 153-161): `per_serving_values` reads the
four nutrient fields of the active row in the order Calories, Protein_g,
Carbs_g, Fat_g; `total_values` multiplies each by `serving_count` and does
nothing else — no rounding, no clamping. -/
def scale (row : DishRecord) (serving_count : ℤ) : ScaleResult :=
  let per_serving_values : List ℚ := [row.calories, row.protein_g, row.carbs_g, row.fat_g]
  ⟨per_serving_values, per_serving_values.map (fun value => value * (serving_count : ℚ))⟩

/-- A Boolean string comparison: lexicographic order on code points, the
order Python `sorted` uses on strings. -/
def strLe : PyStr → PyStr → Bool
  | [], _ => true
  | _ :: _, [] => false
  | a :: as, b :: bs => if a = b then strLe as bs else decide (a < b)

/-- The ordering relation behind `strLe`, for use with `List.insertionSort`. -/
def nameLe (a b : PyStr) : Prop := strLe a b = true

instance : DecidableRel nameLe := fun a b => instDecidableEqBool (strLe a b) true

/-- `dish_list` (src/app.py line 121): `sorted(dishes_df["Dish"].tolist())` —
Python `sorted` over all names, duplicates kept.  Python sorting is a stable
comparison sort; any sort that is sorted and a permutation of its input is
an equivalent embedding, and we use insertion sort. -/
def dish_list (ds : List DishRecord) : List PyStr :=
  List.insertionSort nameLe (ds.map (fun r => r.name))

/-- What one interaction of `main` produces for the presentation layer. -/
inductive Outcome
  | datasetNotFound
  | noMatch
  | success (table : List DishRecord) (active : DishRecord)
      (perServing : List ℚ) (total : List ℚ) (servings : ℤ)
deriving DecidableEq

/-- `main` (src/app.py lines 93-161) as one pure interaction: load the
dataset (early return with an error message when the csv is missing),
resolve the query (early return with a warning when no row matches), take
the first matching row with `result_df.iloc[0]`, and scale its nutrients by
the serving count. -/
def runInteraction (source : Option (List DishRecord))
    (textInput selectedDish : PyStr) (serving_count : ℤ) : Outcome :=
  match load_dishes source with
  | .error _ => .datasetNotFound
  | .ok ds =>
    let result_df := resolve ds.records textInput selectedDish
    match result_df with
    | [] => .noMatch
    | row :: rest =>
      let sc := scale row serving_count
      .success (row :: rest) row sc.perServing sc.total serving_count

/-- The matched-row table of an interaction, when it produced one. -/
def Outcome.matchTable : Outcome → Option (List DishRecord)
  | .success t _ _ _ _ => some t
  | _ => none

/-- The active record of an interaction, when it produced one. -/
def Outcome.activeRecord : Outcome → Option DishRecord
  | .success _ a _ _ _ => some a
  | _ => none

/-- The per-serving values of an interaction, when it produced them. -/
def Outcome.perServingValues : Outcome → Option (List ℚ)
  | .success _ _ p _ _ => some p
  | _ => none

/-- Modelled from the spec (refinement side of C4): the needle occurs
contiguously at the beginning of the haystack. -/
def specBeginsWith : PyStr → PyStr → Bool
  | [], _ => true
  | _ :: _, [] => false
  | a :: as, b :: bs => a = b && specBeginsWith as bs

/-- Modelled from the spec (refinement side of C4): the needle is a
contiguous substring of the haystack. -/
def specContainsSubstr (needle : PyStr) : PyStr → Bool
  | [] => specBeginsWith needle []
  | hay@(_ :: cs) => specBeginsWith needle hay || specContainsSubstr needle cs

/-- Modelled from the spec (refinement side of C4): the free-text lookup the
spec describes — exactly the records whose name contains the trimmed query
as a case-insensitive substring, in dataset order. -/
def specResolveFreeText (ds : List DishRecord) (textInput : PyStr) : List DishRecord :=
  ds.filter (fun r => specContainsSubstr (pyLower (pyStrip textInput)) (pyLower r.name))

/-- Modelled from the spec (refinement side of C9): the sorted list of
distinct dish names, each distinct name exactly once. -/
def specDistinctDishList (ds : List DishRecord) : List PyStr :=
  (List.insertionSort nameLe (ds.map (fun r => r.name))).dedup

/-! Concrete sample data for witnesses and counterexamples, in the shape of
`dishes.csv` rows. -/

/-- The name cell of the sample row Chicken Biryani. -/
def nameChickenBiryani : PyStr := "Chicken Biryani".data

/-- The name cell of the sample row Veg Biryani. -/
def nameVegBiryani : PyStr := "Veg Biryani".data

/-- The name cell of the sample row Paneer Tikka. -/
def namePaneerTikka : PyStr := "Paneer Tikka".data

/-- The name cell of the sample row Rice. -/
def nameRice : PyStr := "Rice".data

/-- The name cell of the sample rows named Dal. -/
def nameDal : PyStr := "Dal".data

/-- A sample row. -/
def chickenBiryani : DishRecord := DishRecord.mk nameChickenBiryani 450 30 45 18

/-- A sample row. -/
def vegBiryani : DishRecord := DishRecord.mk nameVegBiryani 380 9 60 12

/-- A sample row. -/
def paneerTikka : DishRecord := DishRecord.mk namePaneerTikka 320 18 12 22

/-- A sample row. -/
def riceDish : DishRecord := DishRecord.mk nameRice 130 3 28 1

/-- A sample row named Dal. -/
def dalOne : DishRecord := DishRecord.mk nameDal 180 9 20 6

/-- A second, different sample row that shares the name Dal. -/
def dalTwo : DishRecord := DishRecord.mk nameDal 200 10 22 7

/-- A sample dataset with two biryani dishes. -/
def dishesBiryani : List DishRecord := [chickenBiryani, vegBiryani]

/-- A sample dataset with one dish. -/
def dishesPaneer : List DishRecord := [paneerTikka]

/-- A sample dataset with one dish whose lowercased name is rice. -/
def dishesRice : List DishRecord := [riceDish]

/-- A sample dataset with two distinct records sharing one name. -/
def dishesDup : List DishRecord := [dalOne, dalTwo]

/-- The free-text query biryani. -/
def qBiryani : PyStr := "biryani".data

/-- A free-text query containing the regex metacharacter dot. -/
def qRegexDot : PyStr := ['r', '.', 'c', 'e']

/-- The free-text query rice. -/
def qRice : PyStr := "rice".data

/-- The selected name Paneer Tikka. -/
def selPaneer : PyStr := "Paneer Tikka".data

/-- The selected name PANEER TIKKA, the same name in upper case. -/
def selPaneerUpper : PyStr := "PANEER TIKKA".data

/-- The selected name of a dish absent from the sample datasets. -/
def selNonexistent : PyStr := "Nonexistent Dish".data

/-- The selected name Dal. -/
def selDal : PyStr := "Dal".data

/-- An empty text input. -/
def emptyText : PyStr := []

/-! Helper lemmas. -/

/-- The two branches of `resolve` are the two branches of `queryPred`. -/
theorem resolve_eq_filter_queryPred (ds : List DishRecord) (t sel : PyStr) :
    resolve ds t sel = ds.filter (queryPred t sel) := by
  unfold resolve queryPred
  by_cases h : pyStrip t ≠ []
  · simp only [if_pos h]
  · simp only [if_neg h]

/-- The first element kept by a filter is the first element satisfying the
predicate. -/
theorem find_eq_head_of_filter {α : Type} (p : α → Bool) (l : List α) :
    l.find? p = (l.filter p).head? := by
  induction l with
  | nil => rfl
  | cons a as ih =>
    by_cases h : p a = true
    · rw [List.find?_cons_of_pos as h, List.filter_cons_of_pos h, List.head?_cons]
    · rw [List.find?_cons_of_neg as h, List.filter_cons_of_neg h, ih]

/-- On a pattern without the metacharacter dot, one matching step of the
regex fragment is a literal comparison at the beginning of the text. -/
theorem matchHere_of_noDot (pat : PyStr) (h : ∀ c ∈ pat, c ≠ '.') (s : PyStr) :
    matchHere pat s = specBeginsWith pat s := by
  induction pat generalizing s with
  | nil => cases s <;> rfl
  | cons p ps ih =>
    cases s with
    | nil => rfl
    | cons c cs =>
      have hp : p ≠ '.' := h p (by simp)
      have ihh := ih (fun d hd => h d (by simp [hd])) cs
      simp [matchHere, specBeginsWith, charMatches, hp, ihh]

/-- On a pattern without the metacharacter dot, the regex search of the
modelled fragment is exactly the substring test. -/
theorem reSearch_of_noDot (pat : PyStr) (h : ∀ c ∈ pat, c ≠ '.') (s : PyStr) :
    reSearch pat s = specContainsSubstr pat s := by
  induction s with
  | nil => simp [reSearch, specContainsSubstr, matchHere_of_noDot pat h]
  | cons c cs ih => simp [reSearch, specContainsSubstr, matchHere_of_noDot pat h, ih]

/-- `strLe` is total. -/
theorem strLe_total (a b : PyStr) : strLe a b = true ∨ strLe b a = true := by
  induction a generalizing b with
  | nil => left; rfl
  | cons x xs ih =>
    cases b with
    | nil => right; rfl
    | cons y ys =>
      by_cases hxy : x = y
      · subst hxy
        rcases ih ys with h | h
        · left; simp [strLe, h]
        · right; simp [strLe, h]
      · rcases Ne.lt_or_lt hxy with h | h
        · left; simp [strLe, hxy, h]
        · right; simp [strLe, Ne.symm hxy, h]

/-- `strLe` is transitive. -/
theorem strLe_trans (a b c : PyStr) (hab : strLe a b = true) (hbc : strLe b c = true) :
    strLe a c = true := by
  induction a generalizing b c with
  | nil => rfl
  | cons x xs ih =>
    cases b with
    | nil => simp [strLe] at hab
    | cons y ys =>
      cases c with
      | nil => simp [strLe] at hbc
      | cons z zs =>
        by_cases hxy : x = y
        · subst hxy
          by_cases hyz : x = z
          · subst hyz
            simp only [strLe, if_pos rfl] at hab hbc ⊢
            exact ih ys zs hab hbc
          · simp only [strLe, if_pos rfl] at hab
            simp only [strLe, if_neg hyz] at hbc ⊢
            exact hbc
        · by_cases hyz : y = z
          · subst hyz
            simp only [strLe, if_neg hxy] at hab ⊢
            exact hab
          · simp only [strLe, if_neg hxy, decide_eq_true_eq] at hab
            simp only [strLe, if_neg hyz, decide_eq_true_eq] at hbc
            have hxz : x < z := lt_trans hab hbc
            simp [strLe, ne_of_lt hxz, hxz]

instance : IsTotal PyStr nameLe := ⟨strLe_total⟩

instance : IsTrans PyStr nameLe := ⟨strLe_trans⟩

/-! Claim theorems. -/

/-- C1: for every resolved record and every serving count, the scaler
returns perServing as exactly the four nutrient fields of the record in the
order Calories, Protein_g, Carbs_g, Fat_g, and each total entry is the
corresponding perServing entry times the serving count — exact
multiplication with no rounding; the equations hold for every integer
serving count, also outside 1..5, so the scaler applies no clamping. -/
theorem C1_scale_reads_fields_and_multiplies (r : DishRecord) (s : ℤ) :
    (scale r s).perServing = [r.calories, r.protein_g, r.carbs_g, r.fat_g] ∧
    (scale r s).total.length = 4 ∧
    ∀ i, i < 4 →
      (scale r s).total.getD i 0 = (scale r s).perServing.getD i 0 * (s : ℚ) := by
  refine ⟨rfl, rfl, ?_⟩
  intro i hi
  interval_cases i <;> rfl

/-- C1 witness: the scaler equation at a concrete record and the
out-of-range serving count 7, which also exhibits the absence of
clamping. -/
theorem C1_witness :
    (scale riceDish 7).total.getD 0 0 = (scale riceDish 7).perServing.getD 0 0 * ((7 : ℤ) : ℚ) :=
  (C1_scale_reads_fields_and_multiplies riceDish 7).2.2 0 (by decide)

/-- C2: linearity of scaling — for every record and serving count in 1..5,
each total entry equals the corresponding one-serving total entry times the
serving count, and at one serving the total list equals the perServing
list. -/
theorem C2_scale_linear (r : DishRecord) (s : ℤ) (h1 : 1 ≤ s) (h5 : s ≤ 5) :
    (∀ i, i < 4 →
      (scale r s).total.getD i 0 = (scale r 1).total.getD i 0 * (s : ℚ)) ∧
    (scale r 1).total = (scale r 1).perServing := by
  constructor
  · intro i hi
    interval_cases i <;> simp [scale]
  · simp [scale]

/-- C2 witness: linearity at a concrete record and serving count 3. -/
theorem C2_witness :
    (scale riceDish 3).total.getD 2 0 = (scale riceDish 1).total.getD 2 0 * ((3 : ℤ) : ℚ) :=
  (C2_scale_linear riceDish 3 (by decide) (by decide)).1 2 (by decide)

/-- C3: whenever the resolver result is non-empty, the active record that
drives the summary, the metrics and the charts is the first record of the
dataset satisfying the query predicate — the first match in dataset order,
also when several records match. -/
theorem C3_active_is_first_match (rows : List DishRecord) (t sel : PyStr) (s : ℤ)
    (h : resolve rows t sel ≠ []) :
    (runInteraction (some rows) t sel s).activeRecord = rows.find? (queryPred t sel) := by
  rcases hres : resolve rows t sel with _ | ⟨row, rest⟩
  · exact absurd hres h
  · have hrun : runInteraction (some rows) t sel s =
        .success (row :: rest) row (scale row s).perServing (scale row s).total s := by
      unfold runInteraction load_dishes
      simp [hres]
    rw [hrun]
    show some row = rows.find? (queryPred t sel)
    rw [find_eq_head_of_filter, ← resolve_eq_filter_queryPred, hres, List.head?_cons]

/-- C3 witness: with two distinct records that share the name Dal and an
exact-name lookup for Dal, the active record is the first of the two. -/
theorem C3_witness :
    (runInteraction (some dishesDup) emptyText selDal 2).activeRecord =
      dishesDup.find? (queryPred emptyText selDal) :=
  C3_active_is_first_match dishesDup emptyText selDal 2 (by decide)

/-- C4 counterexample: with the dataset containing only the dish Rice and
the free-text query r.ce, pandas `str.contains` interprets the query as a
regular expression (default regex=True) and matches the record, although
r.ce is not a substring of rice — so resolve is not the case-insensitive
substring search the claim states. -/
theorem C4_counterexample :
    resolve dishesRice qRegexDot emptyText ≠ specResolveFreeText dishesRice qRegexDot := by
  intro h
  exact absurd (congrArg List.length h) (by decide)

/-- C4 amended: for every free-text query that is non-empty after trimming
and whose trimmed, lowercased form contains no Python regex metacharacter,
resolve returns exactly the records whose name contains the trimmed query
as a case-insensitive substring, all of them, in original dataset order;
queries containing metacharacters are instead interpreted as regular
expressions. -/
theorem C4_resolve_substring_of_no_metachar (ds : List DishRecord) (t sel : PyStr)
    (hne : pyStrip t ≠ [])
    (hmeta : ∀ c ∈ pyLower (pyStrip t), c ∉ reMetachars) :
    resolve ds t sel = specResolveFreeText ds t := by
  have hdot : ∀ c ∈ pyLower (pyStrip t), c ≠ '.' := by
    intro c hc hceq
    exact hmeta c hc (by rw [hceq]; simp [reMetachars])
  unfold resolve specResolveFreeText
  rw [if_pos hne]
  exact List.filter_congr (fun r hr => reSearch_of_noDot _ hdot (dish_lower r))

/-- C4 amended witness: the metacharacter-free query biryani returns both
biryani dishes, exactly as the substring semantics prescribes. -/
theorem C4_witness :
    resolve dishesBiryani qBiryani emptyText = specResolveFreeText dishesBiryani qBiryani :=
  C4_resolve_substring_of_no_metachar dishesBiryani qBiryani emptyText (by decide) (by decide)

/-- C5: with the free text empty after trimming, resolve performs the
case-insensitive exact-name match — it returns exactly the records whose
lowercased name equals the lowercased selected name, keeps duplicates
(every matching record occurs as often as in the dataset), and two selected
names that agree after lowercasing yield identical result sequences. -/
theorem C5_resolve_selected_exact (ds : List DishRecord) (t sel : PyStr)
    (hempty : pyStrip t = []) :
    resolve ds t sel = ds.filter (fun r => pyLower r.name == pyLower sel) ∧
    (∀ r : DishRecord, pyLower r.name = pyLower sel →
      (resolve ds t sel).count r = ds.count r) ∧
    ∀ sel₂ : PyStr, pyLower sel = pyLower sel₂ →
      resolve ds t sel = resolve ds t sel₂ := by
  have hbranch : ∀ s₂ : PyStr,
      resolve ds t s₂ = ds.filter (fun r => pyLower r.name == pyLower s₂) := by
    intro s₂
    unfold resolve
    rw [if_neg (by simp [hempty])]
    rfl
  refine ⟨hbranch sel, ?_, ?_⟩
  · intro r hr
    rw [hbranch sel]
    exact List.count_filter (by simp [hr])
  · intro sel₂ hsel
    rw [hbranch sel, hbranch sel₂, hsel]

/-- C5 witness: the selected names Paneer Tikka and PANEER TIKKA yield the
same result sequence. -/
theorem C5_witness :
    resolve dishesPaneer emptyText selPaneer = resolve dishesPaneer emptyText selPaneerUpper :=
  (C5_resolve_selected_exact dishesPaneer emptyText selPaneer (by decide)).2.2
    selPaneerUpper (by decide)

/-- C6: exactly one query mode per lookup — when the free text is non-empty
after trimming, the result is the substring-search branch and the selected
name is ignored; when it is empty after trimming, the result is the
exact-match branch on the selected name, whatever the all-whitespace free
text was. -/
theorem C6_query_mode_exclusive (ds : List DishRecord) (t t₂ sel sel₂ : PyStr) :
    (pyStrip t ≠ [] →
      resolve ds t sel = ds.filter (fun r => reSearch (pyLower (pyStrip t)) (dish_lower r)) ∧
      resolve ds t sel = resolve ds t sel₂) ∧
    (pyStrip t = [] → pyStrip t₂ = [] →
      resolve ds t sel = ds.filter (fun r => dish_lower r == pyLower sel) ∧
      resolve ds t sel = resolve ds t₂ sel) := by
  constructor
  · intro h
    constructor
    · unfold resolve
      rw [if_pos h]
    · unfold resolve
      rw [if_pos h, if_pos h]
  · intro h h₂
    constructor
    · unfold resolve
      rw [if_neg (by simp [h])]
    · unfold resolve
      rw [if_neg (by simp [h]), if_neg (by simp [h₂])]

/-- C6 witness: with the non-empty free text rice, changing the selected
name does not change the result. -/
theorem C6_witness :
    resolve dishesBiryani qRice selPaneer = resolve dishesBiryani qRice emptyText :=
  ((C6_query_mode_exclusive dishesBiryani qRice emptyText selPaneer emptyText).1 (by decide)).2

/-- C7: an empty resolver result is the distinct non-fatal no-match outcome:
the interaction stops with Outcome.noMatch, producing no scaled values, no
active record, no summary and no chart data. -/
theorem C7_noMatch_stops (rows : List DishRecord) (t sel : PyStr) (s : ℤ)
    (h : resolve rows t sel = []) :
    runInteraction (some rows) t sel s = .noMatch := by
  unfold runInteraction load_dishes
  simp [h]

/-- C7 witness: looking up the absent name Nonexistent Dish ends the
interaction in the no-match outcome. -/
theorem C7_witness :
    runInteraction (some dishesBiryani) emptyText selNonexistent 2 = Outcome.noMatch :=
  C7_noMatch_stops dishesBiryani emptyText selNonexistent 2 (by decide)

/-- C8: a missing source makes the loader fail with DatasetNotFound, no
Dataset value is constructed, and the whole interaction aborts with the
dataset-not-found outcome and nothing else. -/
theorem C8_missing_source_aborts (t sel : PyStr) (s : ℤ) :
    load_dishes none = .error .datasetNotFound ∧
    (∀ ds : Dataset, load_dishes none ≠ .ok ds) ∧
    runInteraction none t sel s = .datasetNotFound := by
  refine ⟨rfl, ?_, rfl⟩
  intro ds h
  exact Except.noConfusion h

/-- C8 witness: a concrete interaction on the missing source aborts with the
dataset-not-found outcome. -/
theorem C8_witness :
    runInteraction none emptyText selPaneer 1 = Outcome.datasetNotFound :=
  (C8_missing_source_aborts emptyText selPaneer 1).2.2

/-- C9 counterexample: with two records named Dal, the select-box list the
code builds contains Dal twice, while the sorted list of distinct names
contains it once — so the control is not populated from the distinct-names
list the claim states. -/
theorem C9_counterexample :
    dish_list dishesDup ≠ specDistinctDishList dishesDup := by
  intro h
  exact absurd (congrArg List.length h) (by decide)

/-- C9 amended: the dish-selection control is populated from the sorted list
of all dish names with duplicates preserved — the list is sorted and is a
permutation of the names of the records, so a name occurring k times in the
dataset occurs k times in the control, not once. -/
theorem C9_dish_list_sorted_all_names (ds : List DishRecord) :
    List.Sorted nameLe (dish_list ds) ∧
    (dish_list ds).Perm (ds.map (fun r => r.name)) := by
  unfold dish_list
  exact ⟨List.sorted_insertionSort nameLe (ds.map (fun r => r.name)),
    List.perm_insertionSort nameLe (ds.map (fun r => r.name))⟩

/-- C10: noninterference of the serving count — for a fixed dataset and
query, two interactions with serving counts in 1..5 produce the same match
table, the same active record and the same per-serving values; the serving
count influences only the totals and their presentation. -/
theorem C10_serving_noninterference (rows : List DishRecord) (t sel : PyStr)
    (s₁ s₂ : ℤ) (h₁l : 1 ≤ s₁) (h₁u : s₁ ≤ 5) (h₂l : 1 ≤ s₂) (h₂u : s₂ ≤ 5) :
    (runInteraction (some rows) t sel s₁).matchTable =
      (runInteraction (some rows) t sel s₂).matchTable ∧
    (runInteraction (some rows) t sel s₁).activeRecord =
      (runInteraction (some rows) t sel s₂).activeRecord ∧
    (runInteraction (some rows) t sel s₁).perServingValues =
      (runInteraction (some rows) t sel s₂).perServingValues := by
  rcases hres : resolve rows t sel with _ | ⟨row, rest⟩ <;>
    simp [runInteraction, load_dishes, hres, scale, Outcome.matchTable,
      Outcome.activeRecord, Outcome.perServingValues]

/-- C10 witness: serving counts 1 and 5 produce the same match table for the
biryani query. -/
theorem C10_witness :
    (runInteraction (some dishesBiryani) qBiryani emptyText 1).matchTable =
      (runInteraction (some dishesBiryani) qBiryani emptyText 5).matchTable :=
  (C10_serving_noninterference dishesBiryani qBiryani emptyText 1 5 (by decide) (by decide)
    (by decide) (by decide)).1

end NutritionApp
